import Mathlib

/-!
Verification of the stateless authentication and ownership-enforcement core
of a multi-user task manager, together with its shipped frontend API client.

Frontend definitions are translated from
src/phase2/frontend/src/lib/api.ts, src/phase2/frontend/src/types/index.ts
and the ProtectedRoute component. The backend core (Token Issuer, Token
Verifier, Authorization Middleware, Ownership Enforcer, Password Hasher and
account registration) ships no source code in this repository (only spec
documents, a README and its frontend callers), so those definitions are
modelled from the specification and carry a note saying so.
-/

namespace TodoSpec

/-! ## Client-side token storage (localStorage, api.ts) -/

/-- The auth_token entry of the browser localStorage: present or absent. -/
abbrev Storage := Option String

/-- Translated from getToken in api.ts: read the auth_token entry. -/
def getToken (s : Storage) : Option String := s

/-- Translated from setToken in api.ts: store a token. -/
def setToken (t : String) (_s : Storage) : Storage := some t

/-- Translated from removeToken in api.ts: delete the auth_token entry. -/
def removeToken (_s : Storage) : Storage := none

/-! ## Request headers built by apiRequest (api.ts) -/

/-- A header map, modelling the JS headers object of apiRequest. -/
abbrev Headers := String → Option String

/-- The empty header map: what every exported api.ts function passes as
options.headers (none of them supplies custom headers). -/
def emptyHeaders : Headers := fun _ => none

/-- Assignment to one key of a header object. -/
def setHeader (k v : String) (hs : Headers) : Headers :=
  fun q => if q = k then some v else hs q

/-- Translated from apiRequest in api.ts: the headers object starts from
a Content-Type entry, is overridden by the spread of options.headers, and
when getToken returns a token the Authorization entry is set to the string
Bearer followed by the token. -/
def apiHeaders (token : Option String) (extra : Headers) : Headers :=
  let base : Headers := fun q =>
    match extra q with
    | some v => some v
    | none => if q = "Content-Type" then some "application/json" else none
  match token with
  | some t => setHeader "Authorization" ("Bearer " ++ t) base
  | none => base

/-! ## The apiRequest error-handling path (api.ts) -/

/-- The observable shape of a fetch response, as apiRequest inspects it:
the ok flag, the numeric status, the status text, whether the content type
is JSON, the detail and message fields of the decoded JSON body, and the
successful payload. -/
structure ServerResponse where
  ok : Bool
  status : Nat
  statusText : String
  isJson : Bool
  detail : Option String
  message : Option String
  body : String
deriving DecidableEq

/-- JS truthiness fallback for data.detail and data.message in api.ts:
a missing or empty string falls through to the default. -/
def jsOrElse (v : Option String) (d : String) : String :=
  match v with
  | some s => if s = "" then d else s
  | none => d

/-- Outcome of one apiRequest call: a resolved value or a thrown error. -/
inductive ApiOutcome where
  | success (data : String)
  | thrown (msg : String)
deriving DecidableEq

/-- Translated from apiRequest in api.ts, lines 64 to 110: non-JSON
responses throw on a non-ok status and otherwise resolve with an empty
object; JSON error responses with status 401 remove the stored token and
throw the fixed unauthorized message; every other JSON error response
throws the detail or message of the body without touching storage; ok JSON
responses resolve with the body. Returns the storage afterwards and the
outcome. -/
def apiRequest (s : Storage) (r : ServerResponse) : Storage × ApiOutcome :=
  if r.isJson = false then
    if r.ok = false then
      (s, ApiOutcome.thrown ("HTTP " ++ toString r.status ++ ": " ++ r.statusText))
    else
      (s, ApiOutcome.success "")
  else if r.ok = false then
    if r.status = 401 then
      (removeToken s, ApiOutcome.thrown "Unauthorized. Please sign in again.")
    else
      (s, ApiOutcome.thrown (jsOrElse r.detail (jsOrElse r.message "An error occurred")))
  else
    (s, ApiOutcome.success r.body)

/-! ## signOut (api.ts) -/

/-- Outcome of one signOut call: the success message, or an exception that
propagated out of the awaited apiRequest call. -/
inductive SignOutResult where
  | signedOut
  | raised (msg : String)
deriving DecidableEq

/-- Translated from signOut in api.ts, lines 155 to 166: when a token is
stored, the signout endpoint is called first and an exception from that
call propagates before removeToken is reached; otherwise, and on success,
removeToken runs and the success message is returned. The parameter r is
the response of the signout endpoint when it is consulted. -/
def signOut (s : Storage) (r : ServerResponse) : Storage × SignOutResult :=
  match getToken s with
  | none => (removeToken s, SignOutResult.signedOut)
  | some _ =>
    match apiRequest s r with
    | (s2, ApiOutcome.success _) => (removeToken s2, SignOutResult.signedOut)
    | (s2, ApiOutcome.thrown m) => (s2, SignOutResult.raised m)

/-! ## createTask payload (api.ts and types/index.ts) -/

/-- Translated from the TaskCreate request shape as sent by createTask in
api.ts, lines 178 to 188: title, optional description, optional due date.
There is no owner field of any kind. -/
structure TaskCreate where
  title : String
  description : Option String
  due_date : Option String
deriving DecidableEq

/-- Translated from createTask in api.ts: the JSON body it posts is built
from exactly the three arguments. -/
def createTask (title : String) (description : Option String)
    (dueDate : Option String) : TaskCreate :=
  { title := title, description := description, due_date := dueDate }

/-! ## ProtectedRoute (frontend component) -/

/-- What ProtectedRoute renders. -/
inductive RenderResult where
  | spinner
  | nullRender
  | children
deriving DecidableEq

/-- Translated from the ProtectedRoute component: while loading it renders
a spinner; with no token it renders null (the effect hook redirects to the
signin page); with a token it renders its children. -/
def ProtectedRoute (loading : Bool) (token : Option String) : RenderResult :=
  if loading then RenderResult.spinner
  else
    match token with
    | none => RenderResult.nullRender
    | some _ => RenderResult.children

/-! ## Token Issuer and Token Verifier

Modelled from the spec: the backend ships no source in this repository, so
sections 4.2 and 4.3 of the specification are embedded directly. -/

/-- Modelled from the spec: the fixed strongly typed claim set of a token,
with subject, issued_at and expires_at (section 3, Session Claim). -/
structure Claims where
  subject : Nat
  issued_at : Nat
  expires_at : Nat
deriving DecidableEq

/-- Modelled from the spec: process-wide immutable configuration, the
signing key and the token TTL (section 6, configuration surface). -/
structure Config where
  key : Nat
  ttl : Nat
deriving DecidableEq

/-- Modelled from the spec: a keyed signature over a claim set. The
concrete combination stands in for the HMAC of the implementation; the
development only relies on the verifier recomputing the same function. -/
def mac (key : Nat) (c : Claims) : Nat :=
  key + 2 * c.subject + 3 * c.issued_at + 5 * c.expires_at

/-- Modelled from the spec: a bearer token on the wire is either an
unparseable blob or a claim set together with a signature. -/
inductive Wire where
  | garbage (s : String)
  | tok (claims : Claims) (sig : Nat)
deriving DecidableEq

/-- Modelled from the spec, section 4.2: issue builds the claim set with
subject the account id, issued_at now and expires_at now plus TTL, and
signs it. -/
def issue (cfg : Config) (accountId : Nat) (now : Nat) : Wire :=
  let c : Claims := { subject := accountId, issued_at := now, expires_at := now + cfg.ttl }
  Wire.tok c (mac cfg.key c)

/-- Modelled from the spec, section 4.3: the three verifier failure
modes. -/
inductive AuthError where
  | malformed
  | invalidSignature
  | expired
deriving DecidableEq

/-- Modelled from the spec, section 4.3: step 1 parse (malformed input
fails), step 2 signature check, step 3 expiry check now strictly before
expires_at, step 4 return the subject claim. -/
def verify (cfg : Config) (w : Wire) (now : Nat) : Except AuthError Nat :=
  match w with
  | Wire.garbage _ => Except.error AuthError.malformed
  | Wire.tok c s =>
    if s = mac cfg.key c then
      if now < c.expires_at then Except.ok c.subject
      else Except.error AuthError.expired
    else Except.error AuthError.invalidSignature

/-! ## Authorization Middleware

Modelled from the spec, sections 4.4 and 7. -/

/-- An HTTP-level response: status code and body. -/
structure Response where
  status : Nat
  body : String
deriving DecidableEq

/-- Modelled from the spec, section 7: the uniform 401-equivalent response
for a missing credential, with the deliberately generic message. -/
def missingCredentialResponse : Response :=
  { status := 401, body := "invalid or missing credentials" }

/-- Modelled from the spec, sections 4.3 and 7: the response produced for
each verifier failure mode; all three collapse to the same generic
401-equivalent response. -/
def authErrorResponse : AuthError → Response
  | AuthError.malformed => { status := 401, body := "invalid or missing credentials" }
  | AuthError.invalidSignature => { status := 401, body := "invalid or missing credentials" }
  | AuthError.expired => { status := 401, body := "invalid or missing credentials" }

/-- Modelled from the spec, section 4.4: the per-request state machine of
the middleware. -/
inductive ReqState where
  | unauthenticated
  | authenticated (callerId : Nat)
  | rejected
deriving DecidableEq

/-- Modelled from the spec, section 4.4: with no credential, or when the
verifier fails, the request is rejected with a 401-equivalent response and
the handler never runs; on success the resolved account id is attached to
the context and the handler runs with it. -/
def middleware (cfg : Config) (credential : Option Wire) (now : Nat)
    (handler : Nat → Response) : ReqState × Response :=
  match credential with
  | none => (ReqState.rejected, missingCredentialResponse)
  | some w =>
    match verify cfg w now with
    | Except.error e => (ReqState.rejected, authErrorResponse e)
    | Except.ok accountId => (ReqState.authenticated accountId, handler accountId)

/-! ## Ownership Enforcer and resource handlers

Modelled from the spec, sections 4.5 and 7, and from the ownership check
query of src/phase2/specs/data-model.md (select by id and user_id). -/

/-- A stored resource: id, owner, payload fields (section 3, Resource; the
task fields follow src/phase2/specs/data-model.md). -/
structure Resource where
  id : Nat
  owner_id : Nat
  title : String
  description : Option String
  completed : Bool
  created_at : Nat
deriving DecidableEq

/-- Modelled from the spec, section 4.5: the single ownership error. -/
inductive OwnershipError where
  | forbidden
deriving DecidableEq

/-- Modelled from the spec, section 4.5: authorize compares the owner
field of the resource with the caller id. -/
def authorize (callerId : Nat) (r : Resource) : Except OwnershipError Unit :=
  if r.owner_id = callerId then Except.ok () else Except.error OwnershipError.forbidden

/-- The four operation types on a specific resource. -/
inductive Operation where
  | read
  | update (newTitle : String)
  | del
  | toggle
deriving DecidableEq

/-- Modelled from the spec, section 7: the 403-equivalent response for an
ownership failure. -/
def forbiddenResponse : Response := { status := 403, body := "Forbidden" }

/-- Modelled from the spec, section 7: the 404-equivalent response for a
missing resource id. -/
def notFoundResponse : Response := { status := 404, body := "Not Found" }

/-- What a resource handler can produce: resource data, a deletion
acknowledgement, or an error response. -/
inductive HandlerResult where
  | data (r : Resource)
  | deleted (id : Nat)
  | errorResp (resp : Response)
deriving DecidableEq

/-- Modelled from the spec, sections 4.5 and 7: every read, update, delete
or status-change handler looks the resource up by id, consults authorize,
maps an ownership failure to the 403-equivalent response, and only then
performs the operation. A missing id yields the 404-equivalent response. -/
def handleOp (callerId : Nat) (store : List Resource) (rid : Nat)
    (op : Operation) : HandlerResult :=
  match store.find? (fun r => r.id = rid) with
  | none => HandlerResult.errorResp notFoundResponse
  | some r =>
    match authorize callerId r with
    | Except.error OwnershipError.forbidden => HandlerResult.errorResp forbiddenResponse
    | Except.ok _ =>
      match op with
      | Operation.read => HandlerResult.data r
      | Operation.update t => HandlerResult.data { r with title := t }
      | Operation.del => HandlerResult.deleted r.id
      | Operation.toggle => HandlerResult.data { r with completed := !r.completed }

/-- Modelled from the spec, section 4.5: for creation the handler stamps
owner_id with the caller id unconditionally; the client payload carries no
owner value and could not influence the owner field if it did. -/
def createResource (callerId : Nat) (freshId : Nat) (payload : TaskCreate)
    (now : Nat) : Resource :=
  { id := freshId
    owner_id := callerId
    title := payload.title
    description := payload.description
    completed := false
    created_at := now }

/-! ## Account registration

Modelled from the spec, sections 3, 6 and 7: the registration handler
ships no source in this repository; the unique, case-insensitive
login_handle and the conflict rejection are embedded directly. -/

/-- An account record (section 3, Account; digest omitted here since
registration conflicts depend only on the handle). -/
structure Account where
  id : Nat
  email : String
deriving DecidableEq

/-- Modelled from the spec, section 3: login handles compare
case-insensitively. -/
def sameHandle (a b : String) : Bool := a.toLower == b.toLower

/-- Result of one registration request. -/
inductive RegisterResult where
  | created (a : Account)
  | conflict
deriving DecidableEq

/-- Modelled from the spec, sections 6 and 7: registration rejects a
duplicate login_handle with a conflict error and otherwise appends a fresh
account; the store is the list of existing accounts. -/
def register (accounts : List Account) (email : String) :
    List Account × RegisterResult :=
  match accounts.find? (fun a => sameHandle a.email email) with
  | some _ => (accounts, RegisterResult.conflict)
  | none =>
    let a : Account := { id := accounts.length, email := email }
    (accounts ++ [a], RegisterResult.created a)

/-- A sequence of registration requests applied in order. -/
def runRegistrations (accounts : List Account) (reqs : List String) :
    List Account :=
  reqs.foldl (fun st e => (register st e).1) accounts

/-! ## Password Hasher

Modelled from the spec, section 4.1: the hasher ships no source in this
repository. The per-call randomized salt is modelled as an explicit salt
argument; a digest embeds its salt, as bcrypt digests do. -/

/-- Modelled from the spec: a salted digest embeds the salt it was
produced with together with the keyed tag over the plaintext. -/
structure Digest where
  salt : Nat
  tag : Nat
deriving DecidableEq

/-- Modelled from the spec: the one-way function under the salt; a stand-in
for the bcrypt core, folding the plaintext into the salt. -/
def pwMac (salt : Nat) (plaintext : String) : Nat :=
  plaintext.toList.foldl (fun h c => h * 31 + c.toNat) salt

/-- Modelled from the spec, section 4.1: hash draws a fresh salt per call
(here the explicit argument) and returns the salted digest. -/
def hashPassword (plaintext : String) (salt : Nat) : Digest :=
  { salt := salt, tag := pwMac salt plaintext }

/-- Modelled from the spec, section 4.1: verify recomputes the tag under
the salt stored in the digest and compares. -/
def verifyPassword (plaintext : String) (d : Digest) : Bool :=
  pwMac d.salt plaintext == d.tag

/-! ## Server side of signout

Modelled from the spec, sections 5 and 6: the core is stateless, so the
server state consulted by authentication is exactly the immutable
configuration, and the signout endpoint performs no revocation. -/

/-- Modelled from the spec: the signout endpoint reads no token state and
writes none; it only acknowledges. -/
def serverSignout (cfg : Config) : Config × Response :=
  (cfg, { status := 200, body := "Successfully signed out" })

/-! ## Theorems -/

/-- C1: for accounts A and B with A distinct from B and a stored resource
whose owner is A, any read, update, delete or status-change request made
as B yields the ownership failure mapped to the 403 response, never the
resource data and never the 404 response, uniformly over all four
operation types. -/
theorem ownership_isolation (A B : Nat) (store : List Resource) (rid : Nat)
    (op : Operation) (r : Resource)
    (hAB : A ≠ B)
    (hfind : store.find? (fun x => x.id = rid) = some r)
    (hown : r.owner_id = A) :
    handleOp B store rid op = HandlerResult.errorResp forbiddenResponse ∧
    forbiddenResponse.status = 403 ∧
    (∀ x : Resource, handleOp B store rid op ≠ HandlerResult.data x) ∧
    handleOp B store rid op ≠ HandlerResult.errorResp notFoundResponse := by
  have howner : r.owner_id ≠ B := by
    rw [hown]; exact hAB
  have h1 : handleOp B store rid op = HandlerResult.errorResp forbiddenResponse := by
    unfold handleOp
    rw [hfind]
    unfold authorize
    simp [howner]
  refine ⟨h1, rfl, ?_, ?_⟩
  · intro x
    rw [h1]
    intro hc
    cases hc
  · rw [h1]
    intro hc
    injection hc with h
    simp [forbiddenResponse, notFoundResponse] at h

/-- Witness for C1 at a concrete store: Alice (id 1) owns resource 5, and
a read by Bob (id 2) yields the 403 ownership failure. -/
theorem ownership_isolation_witness :
    handleOp 2
        [{ id := 5, owner_id := 1, title := "t", description := none,
           completed := false, created_at := 0 }] 5 Operation.read =
      HandlerResult.errorResp forbiddenResponse ∧
    forbiddenResponse.status = 403 ∧
    (∀ x : Resource,
      handleOp 2
          [{ id := 5, owner_id := 1, title := "t", description := none,
             completed := false, created_at := 0 }] 5 Operation.read ≠
        HandlerResult.data x) ∧
    handleOp 2
        [{ id := 5, owner_id := 1, title := "t", description := none,
           completed := false, created_at := 0 }] 5 Operation.read ≠
      HandlerResult.errorResp notFoundResponse :=
  ownership_isolation 1 2
    [{ id := 5, owner_id := 1, title := "t", description := none,
       completed := false, created_at := 0 }] 5 Operation.read
    { id := 5, owner_id := 1, title := "t", description := none,
      completed := false, created_at := 0 }
    (by decide) (by decide) rfl

/-- C2: the token round-trip. Verifying a token issued for an account at
time now succeeds with that account id at any time strictly before now
plus TTL, fails with the expired error from now plus TTL onwards, and in
general a signed token verifies successfully exactly when its signature
matches and the current time is strictly below expires_at. -/
theorem token_roundtrip (cfg : Config) (accountId now delta : Nat) :
    (delta < cfg.ttl →
      verify cfg (issue cfg accountId now) (now + delta) = Except.ok accountId) ∧
    (cfg.ttl ≤ delta →
      verify cfg (issue cfg accountId now) (now + delta) =
        Except.error AuthError.expired) ∧
    (∀ (c : Claims) (sg now2 : Nat),
      (∃ i, verify cfg (Wire.tok c sg) now2 = Except.ok i) ↔
        (sg = mac cfg.key c ∧ now2 < c.expires_at)) := by
  refine ⟨?_, ?_, ?_⟩
  · intro h
    have hc : now + delta < now + cfg.ttl := by omega
    simp [issue, verify, hc]
  · intro h
    have hc : ¬ now + delta < now + cfg.ttl := by omega
    simp [issue, verify, hc]
  · intro c sg now2
    unfold verify
    by_cases hs : sg = mac cfg.key c
    · by_cases ht : now2 < c.expires_at
      · simp [hs, ht]
      · simp [hs, ht]
    · simp [hs]

/-- Witness for C2 at TTL 10: a token issued at time 5 verifies to its
subject at time 5 plus 3 and is expired at time 5 plus 15. -/
theorem token_roundtrip_witness :
    verify { key := 1, ttl := 10 } (issue { key := 1, ttl := 10 } 2 5) (5 + 3) =
      Except.ok 2 ∧
    verify { key := 1, ttl := 10 } (issue { key := 1, ttl := 10 } 2 5) (5 + 15) =
      Except.error AuthError.expired :=
  ⟨(token_roundtrip { key := 1, ttl := 10 } 2 5 3).1 (by decide),
   (token_roundtrip { key := 1, ttl := 10 } 2 5 15).2.1 (by decide)⟩

/-- C3: creation stamps the caller as owner for every payload; the owner
of the created resource does not depend on the payload at all; and the
body sent by createTask is built from exactly its three arguments, with no
owner field in the request shape. -/
theorem create_stamps_owner (callerId freshId now : Nat) (payload : TaskCreate) :
    (createResource callerId freshId payload now).owner_id = callerId ∧
    (∀ p2 : TaskCreate,
      (createResource callerId freshId p2 now).owner_id =
        (createResource callerId freshId payload now).owner_id) ∧
    (∀ (t : String) (d due : Option String),
      createTask t d due = { title := t, description := d, due_date := due }) :=
  ⟨rfl, fun _ => rfl, fun _ _ _ => rfl⟩

/-- C4: with no credential or a failed verification the request is
rejected with the 401-equivalent response and the outcome does not depend
on the handler, so no handler code runs; the handler runs exactly with an
identity produced by a successful verification; and ProtectedRoute renders
its children exactly when it is not loading and a token is present. -/
theorem middleware_gate (cfg : Config) (now : Nat) (handler : Nat → Response) :
    (∀ h2 : Nat → Response,
      middleware cfg none now handler = (ReqState.rejected, missingCredentialResponse) ∧
      middleware cfg none now handler = middleware cfg none now h2) ∧
    (∀ (w : Wire) (e : AuthError), verify cfg w now = Except.error e →
      middleware cfg (some w) now handler = (ReqState.rejected, authErrorResponse e) ∧
      ∀ h2 : Nat → Response,
        middleware cfg (some w) now handler = middleware cfg (some w) now h2) ∧
    (∀ (w : Wire) (i : Nat), verify cfg w now = Except.ok i →
      middleware cfg (some w) now handler = (ReqState.authenticated i, handler i)) ∧
    (∀ (loading : Bool) (tok : Option String),
      ProtectedRoute loading tok = RenderResult.children ↔
        (loading = false ∧ tok ≠ none)) := by
  refine ⟨?_, ?_, ?_, ?_⟩
  · intro h2
    exact ⟨rfl, rfl⟩
  · intro w e he
    constructor
    · simp [middleware, he]
    · intro h2
      simp [middleware, he]
  · intro w i hi
    simp [middleware, hi]
  · intro loading tok
    cases loading with
    | false =>
      cases tok with
      | none => simp [ProtectedRoute]
      | some t => simp [ProtectedRoute]
    | true => simp [ProtectedRoute]

/-- Witness for C4: a token issued for account 7 with TTL 10 lets the
handler run with identity 7 at time 5, and a garbage credential is
rejected with the 401 response. -/
theorem middleware_gate_witness :
    middleware { key := 1, ttl := 10 } (some (issue { key := 1, ttl := 10 } 7 0)) 5
        (fun _ => { status := 200, body := "ok" }) =
      (ReqState.authenticated 7, { status := 200, body := "ok" }) ∧
    middleware { key := 1, ttl := 10 } (some (Wire.garbage "x")) 5
        (fun _ => { status := 200, body := "ok" }) =
      (ReqState.rejected, authErrorResponse AuthError.malformed) :=
  ⟨(middleware_gate { key := 1, ttl := 10 } 5 (fun _ => { status := 200, body := "ok" })).2.2.1
      (issue { key := 1, ttl := 10 } 7 0) 7 rfl,
   ((middleware_gate { key := 1, ttl := 10 } 5 (fun _ => { status := 200, body := "ok" })).2.1
      (Wire.garbage "x") AuthError.malformed rfl).1⟩

/-- C5: all three verifier failure modes map to one and the same
observable response, equal also to the missing-credential response; hence
any two requests failing authentication for different reasons receive
identical responses, revealing nothing about which check failed. -/
theorem uniform_auth_failure (cfg : Config) (now : Nat) (handler : Nat → Response) :
    (∀ e1 e2 : AuthError, authErrorResponse e1 = authErrorResponse e2) ∧
    (∀ e : AuthError, authErrorResponse e = missingCredentialResponse) ∧
    (∀ e : AuthError, (authErrorResponse e).status = 401) ∧
    (∀ (w1 w2 : Wire) (e1 e2 : AuthError),
      verify cfg w1 now = Except.error e1 → verify cfg w2 now = Except.error e2 →
      (middleware cfg (some w1) now handler).2 = (middleware cfg (some w2) now handler).2) ∧
    (∀ (w : Wire) (e : AuthError), verify cfg w now = Except.error e →
      (middleware cfg (some w) now handler).2 = (middleware cfg none now handler).2) := by
  refine ⟨?_, ?_, ?_, ?_, ?_⟩
  · intro e1 e2
    cases e1 <;> cases e2 <;> rfl
  · intro e
    cases e <;> rfl
  · intro e
    cases e <;> rfl
  · intro w1 w2 e1 e2 h1 h2
    simp only [middleware, h1, h2]
    cases e1 <;> cases e2 <;> rfl
  · intro w e he
    simp only [middleware, he]
    cases e <;> rfl

/-- Witness for C5: a malformed credential and an expired credential
produce identical observable responses, also identical to the
missing-credential response. -/
theorem uniform_auth_failure_witness :
    (middleware { key := 1, ttl := 10 } (some (Wire.garbage "x")) 50
        (fun _ => { status := 200, body := "ok" })).2 =
      (middleware { key := 1, ttl := 10 } (some (issue { key := 1, ttl := 10 } 2 0)) 50
        (fun _ => { status := 200, body := "ok" })).2 ∧
    (middleware { key := 1, ttl := 10 } (some (Wire.garbage "x")) 50
        (fun _ => { status := 200, body := "ok" })).2 =
      (middleware { key := 1, ttl := 10 } none 50
        (fun _ => { status := 200, body := "ok" })).2 :=
  ⟨(uniform_auth_failure { key := 1, ttl := 10 } 50 (fun _ => { status := 200, body := "ok" })).2.2.2.1
      (Wire.garbage "x") (issue { key := 1, ttl := 10 } 2 0)
      AuthError.malformed AuthError.expired rfl rfl,
   (uniform_auth_failure { key := 1, ttl := 10 } 50 (fun _ => { status := 200, body := "ok" })).2.2.2.2
      (Wire.garbage "x") AuthError.malformed rfl⟩

/-- C7: for every stored-token state and every options header map that
does not itself set an Authorization entry (as with every call the client
makes), the headers built by apiRequest carry the entry Bearer followed by
the stored token exactly when a token is stored, and no Authorization
entry otherwise. -/
theorem bearer_header (s : Storage) (extra : Headers)
    (hx : extra "Authorization" = none) :
    apiHeaders (getToken s) extra "Authorization" =
      Option.map (fun t => "Bearer " ++ t) (getToken s) ∧
    (getToken s = none → apiHeaders (getToken s) extra "Authorization" = none) := by
  cases s with
  | none =>
    constructor
    · simp [apiHeaders, getToken, hx]
    · intro _
      simp [apiHeaders, getToken, hx]
  | some t =>
    constructor
    · simp [apiHeaders, getToken, setHeader]
    · intro hc
      cases hc

/-- Witness for C7: with the stored token abc and the empty options
headers the built Authorization entry is Bearer abc. -/
theorem bearer_header_witness :
    apiHeaders (getToken (some "abc")) emptyHeaders "Authorization" =
      Option.map (fun t => "Bearer " ++ t) (getToken (some "abc")) ∧
    (getToken (some "abc") = none →
      apiHeaders (getToken (some "abc")) emptyHeaders "Authorization" = none) :=
  bearer_header (some "abc") emptyHeaders rfl

/-- C9: for a JSON error response, status 401 removes the stored token
before the error is thrown, after which the next request carries no
Authorization header; every other error status throws the detail or
message of the body and leaves client auth state unchanged. -/
theorem unauthorized_clears_token (s : Storage) (r : ServerResponse)
    (hjson : r.isJson = true) (hbad : r.ok = false) :
    (r.status = 401 →
      apiRequest s r =
        (none, ApiOutcome.thrown "Unauthorized. Please sign in again.") ∧
      apiHeaders (getToken (apiRequest s r).1) emptyHeaders "Authorization" = none) ∧
    (r.status ≠ 401 →
      (apiRequest s r).1 = s ∧
      (apiRequest s r).2 =
        ApiOutcome.thrown (jsOrElse r.detail (jsOrElse r.message "An error occurred"))) := by
  constructor
  · intro h401
    have hreq : apiRequest s r =
        (none, ApiOutcome.thrown "Unauthorized. Please sign in again.") := by
      simp [apiRequest, hjson, hbad, h401, removeToken]
    refine ⟨hreq, ?_⟩
    rw [hreq]
    simp [apiHeaders, getToken, emptyHeaders]
  · intro hne
    constructor <;> simp [apiRequest, hjson, hbad, hne]

/-- Witness for C9: a 401 JSON response clears the stored token and a 500
JSON response leaves it untouched. -/
theorem unauthorized_clears_token_witness :
    apiRequest (some "tk")
        { ok := false, status := 401, statusText := "Unauthorized",
          isJson := true, detail := some "Unauthorized", message := none,
          body := "" } =
      (none, ApiOutcome.thrown "Unauthorized. Please sign in again.") ∧
    (apiRequest (some "tk2")
        { ok := false, status := 500, statusText := "Internal Server Error",
          isJson := true, detail := some "Internal Server Error",
          message := none, body := "" }).1 = some "tk2" :=
  ⟨((unauthorized_clears_token (some "tk")
      { ok := false, status := 401, statusText := "Unauthorized",
        isJson := true, detail := some "Unauthorized", message := none,
        body := "" } rfl rfl).1 rfl).1,
   ((unauthorized_clears_token (some "tk2")
      { ok := false, status := 500, statusText := "Internal Server Error",
        isJson := true, detail := some "Internal Server Error",
        message := none, body := "" } rfl rfl).2 (by decide)).1⟩

/-- C10: two hash calls on the same plaintext with distinct per-call salts
yield distinct digests, while verification of a digest against the
plaintext it was produced from always succeeds. -/
theorem salted_hash_distinct (pw : String) (s1 s2 : Nat) (hne : s1 ≠ s2) :
    hashPassword pw s1 ≠ hashPassword pw s2 ∧
    (∀ (p : String) (s : Nat), verifyPassword p (hashPassword p s) = true) := by
  constructor
  · intro hcontra
    apply hne
    have hs := congrArg Digest.salt hcontra
    simpa [hashPassword] using hs
  · intro p s
    simp [verifyPassword, hashPassword]

/-- Witness for C10: hashing pw under salts 0 and 1 gives distinct
digests and verification succeeds. -/
theorem salted_hash_distinct_witness :
    hashPassword "pw" 0 ≠ hashPassword "pw" 1 ∧
    verifyPassword "pw" (hashPassword "pw" 0) = true :=
  ⟨(salted_hash_distinct "pw" 0 1 (by decide)).1,
   (salted_hash_distinct "pw" 0 1 (by decide)).2 "pw" 0⟩

/-- Two handles matching a common third handle case-insensitively match
each other. -/
theorem sameHandle_common (x y z : String) (h1 : sameHandle x z = true)
    (h2 : sameHandle y z = true) : sameHandle x y = true := by
  unfold sameHandle at h1 h2 ⊢
  rw [beq_iff_eq] at h1 h2 ⊢
  rw [h1, h2]

/-- After any registration request the store contains an account whose
handle matches the requested one. -/
theorem register_has_handle (st : List Account) (e : String) :
    ∃ a, a ∈ (register st e).1 ∧ sameHandle a.email e = true := by
  unfold register
  cases hf : st.find? (fun a => sameHandle a.email e) with
  | some a =>
    refine ⟨a, ?_, ?_⟩
    · simp only [hf]
      exact List.mem_of_find?_eq_some hf
    · simpa using List.find?_some hf
  | none =>
    refine ⟨{ id := st.length, email := e }, ?_, ?_⟩
    · simp only [hf]
      simp
    · simp [sameHandle]

/-- When the store already holds a matching handle, registration returns
the conflict result and leaves the store unchanged. -/
theorem register_conflict_of_mem (st : List Account) (e : String)
    (a : Account) (hmem : a ∈ st) (hsame : sameHandle a.email e = true) :
    register st e = (st, RegisterResult.conflict) := by
  have hsome : (st.find? (fun x => sameHandle x.email e)).isSome := by
    rw [List.find?_isSome]
    exact ⟨a, hmem, hsame⟩
  obtain ⟨b, hb⟩ := Option.isSome_iff_exists.mp hsome
  unfold register
  simp only [hb]

/-- One registration step preserves the bound of at most one account per
handle. -/
theorem register_countP_le (st : List Account) (e handle : String)
    (h : List.countP (fun a => sameHandle a.email handle) st ≤ 1) :
    List.countP (fun a => sameHandle a.email handle) (register st e).1 ≤ 1 := by
  unfold register
  cases hf : st.find? (fun a => sameHandle a.email e) with
  | some b =>
    simpa only [hf] using h
  | none =>
    simp only [hf, List.countP_append, List.countP_cons, List.countP_nil]
    by_cases hse : sameHandle e handle = true
    · have hzero : List.countP (fun a => sameHandle a.email handle) st = 0 := by
        rw [List.countP_eq_zero]
        intro a ha
        have hna := List.find?_eq_none.mp hf a ha
        simp only [Bool.not_eq_true] at hna ⊢
        by_contra hah
        simp only [Bool.not_eq_false] at hah
        have hcomm := sameHandle_common a.email e handle hah hse
        rw [hcomm] at hna
        cases hna
      rw [hzero]
      simp [hse]
    · simp only [Bool.not_eq_true] at hse
      simp [hse]
      omega

/-- A whole sequence of registrations preserves the bound of at most one
account per handle. -/
theorem runRegistrations_countP_le (reqs : List String) (handle : String)
    (st : List Account)
    (h : List.countP (fun a => sameHandle a.email handle) st ≤ 1) :
    List.countP (fun a => sameHandle a.email handle) (runRegistrations st reqs) ≤ 1 := by
  induction reqs generalizing st with
  | nil => simpa [runRegistrations] using h
  | cons e rest ih =>
    simp only [runRegistrations, List.foldl_cons]
    exact ih ((register st e).1) (register_countP_le st e handle h)

/-- C6: registering the same login handle a second time always fails the
second attempt with the conflict result and creates no account (the store
is unchanged), and after every sequence of registration requests starting
from the empty store at most one account exists per login handle, compared
case-insensitively. -/
theorem duplicate_registration (st : List Account) (e : String)
    (reqs : List String) (handle : String) :
    (register (register st e).1 e).2 = RegisterResult.conflict ∧
    (register (register st e).1 e).1 = (register st e).1 ∧
    List.countP (fun a => sameHandle a.email handle) (runRegistrations [] reqs) ≤ 1 := by
  obtain ⟨a, hmem, hsame⟩ := register_has_handle st e
  have hconf := register_conflict_of_mem (register st e).1 e a hmem hsame
  refine ⟨?_, ?_, ?_⟩
  · rw [hconf]
  · rw [hconf]
  · exact runRegistrations_countP_le reqs handle [] (by simp)

/-- C8 as stated is false on the shipped client: when a token is stored
and the signout endpoint answers with a JSON error other than 401, the
awaited apiRequest call throws before removeToken is reached, so the token
is still stored after the signOut call. -/
theorem signout_counterexample :
    (signOut (some "tkn")
        { ok := false, status := 500, statusText := "Internal Server Error",
          isJson := true, detail := some "Internal Server Error",
          message := none, body := "" }).1 = some "tkn" ∧
    (signOut (some "tkn")
        { ok := false, status := 500, statusText := "Internal Server Error",
          isJson := true, detail := some "Internal Server Error",
          message := none, body := "" }).2 =
      SignOutResult.raised "Internal Server Error" := by
  constructor <;> decide

/-- C8 amended: whenever a signOut call completes normally the stored
token is removed afterwards; when the signout request fails with a 401
JSON response the token has been removed by apiRequest before the error
propagates; only a non-401 failure of the request leaves the token in
place while the error propagates. Logout performs no server-side
revocation: the server signout endpoint leaves the server authentication
state (the immutable configuration) unchanged. -/
theorem signout_discard (s : Storage) (r : ServerResponse) (cfg : Config) :
    ((signOut s r).2 = SignOutResult.signedOut → (signOut s r).1 = none) ∧
    (r.isJson = true → r.ok = false → r.status = 401 → (signOut s r).1 = none) ∧
    (serverSignout cfg).1 = cfg ∧
    (serverSignout cfg).2.status = 200 := by
  cases s with
  | none => exact ⟨fun _ => rfl, fun _ _ _ => rfl, rfl, rfl⟩
  | some t =>
    refine ⟨?_, ?_, rfl, rfl⟩
    · cases ha : apiRequest (some t) r with
      | mk s2 out =>
        cases out with
        | success d =>
          intro _
          simp [signOut, getToken, ha, removeToken]
        | thrown m =>
          intro hcontra
          simp [signOut, getToken, ha] at hcontra
    · intro hjson hbad h401
      have hreq : apiRequest (some t) r =
          (none, ApiOutcome.thrown "Unauthorized. Please sign in again.") := by
        simp [apiRequest, hjson, hbad, h401, removeToken]
      simp [signOut, getToken, hreq]

/-- Witness for the amended C8: a successful signout response leads to the
token being removed, and a 401 failure of the signout request also leaves
no token stored. -/
theorem signout_discard_witness :
    (signOut (some "tk")
        { ok := true, status := 200, statusText := "OK", isJson := true,
          detail := none, message := none, body := "done" }).1 = none ∧
    (signOut (some "tk")
        { ok := false, status := 401, statusText := "Unauthorized",
          isJson := true, detail := some "Unauthorized", message := none,
          body := "" }).1 = none :=
  ⟨(signout_discard (some "tk")
      { ok := true, status := 200, statusText := "OK", isJson := true,
        detail := none, message := none, body := "done" }
      { key := 0, ttl := 0 }).1 (by decide),
   (signout_discard (some "tk")
      { ok := false, status := 401, statusText := "Unauthorized",
        isJson := true, detail := some "Unauthorized", message := none,
        body := "" }
      { key := 0, ttl := 0 }).2.1 rfl rfl rfl⟩

end TodoSpec
